import Mathlib

/-!
Shallow embedding of the query-serving subsystem of `modules/slm-assist/rag_app.py`
(SLM-Boot repository): metrics collection, backend discovery, index
rebuild-or-reuse decision and persistence, the FAISS-backed retriever, input
validation and the `rag_chat` pipeline.

Modelling conventions:
* Python floats (latencies, similarity scores) are modelled as `ℚ` (latencies)
  and `ℤ` (inner-product scores); `round(x, 2)` is modelled exactly as Python's
  round-half-to-even at two decimal places on rationals.
* The external SHA-256 capability (`hashlib`) is an abstract parameter
  `sha256hex : List Nat → String`; `compute_corpus_hash` feeds the file to it
  as one byte sequence, which is what the chunked incremental update in the
  source computes.
* The external embedding capability (`SentenceTransformer.encode`) is an
  abstract parameter `String → List ℤ` stored in the retriever.
* The FAISS `IndexFlatIP.search` call is modelled by exhaustive top-k selection
  over the stored vectors by descending inner product, padded with the sentinel
  `-1` when `k` exceeds the number of stored vectors, which is its documented
  behaviour for a flat inner-product index.
* Filesystem state relevant to index persistence is a record of the index
  artifact's existence, the sidecar hash file's content, and the corpus file's
  bytes.
-/

set_option maxRecDepth 40000

namespace RagApp

/-! ### Configuration constants (rag_app.py lines 41-50) -/

def MAX_CHARS : Nat := 6000

def RETRIEVER_K : Nat := 5

def MAX_QUERY_LENGTH : Nat := 2000

def MIN_QUERY_LENGTH : Nat := 1

/-! ### Python string helpers -/

/-- The ASCII whitespace characters stripped by Python's `str.strip()`. -/
def isPySpace (c : Char) : Bool :=
  c = ' ' || c = '\t' || c = '\n' || c = '\x0d' || c = '\x0b' || c = '\x0c'

/-- Python `s.strip()`: drop leading and trailing whitespace. -/
def pyStrip (s : String) : String :=
  ⟨((s.data.dropWhile isPySpace).reverse.dropWhile isPySpace).reverse⟩

/-- Python `s.rfind(c)`: index of the last occurrence of `c`, `-1` if absent. -/
def lastIdxOf (c : Char) : List Char → Int
  | [] => -1
  | x :: xs =>
    let r := lastIdxOf c xs
    if r = -1 then (if x = c then 0 else -1) else r + 1

/-- Python's `round` (round half to even) at two decimal places, on `ℚ`. -/
def pyRound2 (x : ℚ) : ℚ :=
  let y := x * 100
  let fl : Int := Int.fdiv y.num (y.den : Int)
  let frac : ℚ := y - (fl : ℚ)
  let n : Int :=
    if frac < 1/2 then fl
    else if 1/2 < frac then fl + 1
    else if fl % 2 = 0 then fl else fl + 1
  (n : ℚ) / 100

/-! ### MetricsCollector (rag_app.py lines 55-77)

The Python class guards its three counters with a lock; the embedding models
the state as a record and each locked method as a pure state transformer. -/

structure MetricsCollector where
  query_count : Nat
  error_count : Nat
  total_latency : ℚ
  deriving Repr, DecidableEq

def MetricsCollector.init : MetricsCollector :=
  { query_count := 0, error_count := 0, total_latency := 0 }

def MetricsCollector.record_query (m : MetricsCollector) (latency_seconds : ℚ)
    (success : Bool) : MetricsCollector :=
  { query_count := m.query_count + 1
    total_latency := m.total_latency + latency_seconds
    error_count := if success then m.error_count else m.error_count + 1 }

structure Stats where
  total_queries : Nat
  errors : Nat
  avg_latency_sec : ℚ
  success_rate : ℚ
  deriving Repr, DecidableEq

def MetricsCollector.get_stats (m : MetricsCollector) : Stats :=
  let avg_latency : ℚ :=
    if 0 < m.query_count then m.total_latency / (m.query_count : ℚ) else 0
  { total_queries := m.query_count
    errors := m.error_count
    avg_latency_sec := pyRound2 avg_latency
    success_rate :=
      if 0 < m.query_count then
        pyRound2 ((((m.query_count : ℚ) - (m.error_count : ℚ)) / (m.query_count : ℚ)) * 100)
      else 100 }

/-! ### Input validation (rag_app.py lines 273-284) -/

def validate_input (message : String) : Bool × Option String :=
  if message = "" || pyStrip message = "" then
    (false, some "Please enter a question.")
  else if message.length < MIN_QUERY_LENGTH then
    (false, some "Query too short. Please provide more detail.")
  else if MAX_QUERY_LENGTH < message.length then
    (false, some ("Query too long (max " ++ toString MAX_QUERY_LENGTH ++
      " characters). Please shorten your question."))
  else
    (true, none)

/-- Python `smart_truncate(text, max_len)` (rag_app.py lines 286-296); the
float comparison `last_space > max_len * 0.8` is modelled exactly on `ℚ`. -/
def smart_truncate (text : String) (max_len : Nat) : String :=
  if text.length ≤ max_len then text
  else
    let truncated := text.take max_len
    let last_space : Int := lastIdxOf ' ' truncated.data
    if (max_len : ℚ) * (8/10) < (last_space : ℚ) then
      (truncated.take last_space.toNat) ++ "..."
    else truncated ++ "..."

/-! ### Backend discovery (rag_app.py lines 84-130)

One loop iteration of `detect_ollama_model` observes one of five outcomes:
a network-level failure (`requests.RequestException`, including HTTP error
statuses raised by `raise_for_status`), a 200 response whose body is not JSON
(`ValueError` from `response.json()`), a JSON body with an empty or absent
`models` list, a JSON body whose first model entry has no usable `name`
(`KeyError`/`IndexError`/`TypeError`), or a usable first model name.
`time.sleep(retry_delay)` is modelled by appending the delay to a `sleeps`
trace; `sys.exit(1)` on exhaustion is modelled by the result `none`. -/

inductive PollOutcome where
  | netFail
  | badJson
  | emptyModels
  | malformedModels
  | model (name : String)
  deriving Repr, DecidableEq

structure DetectResult where
  result : Option String
  sleeps : List Nat
  deriving Repr, DecidableEq

/-- The retry loop body, with `rem` the number of attempts still available
including the current one (`rem = max_retries - attempt + 1`), so
`attempt < max_retries` in the source is `0 < rem - 1` here, i.e. the
sleep guard fires exactly when another attempt remains.  The `badJson` and
`malformedModels` arms are the two `continue` statements of the source, which
jump to the next iteration without reaching the `time.sleep` call. -/
def detectGo (outcomes : Nat → PollOutcome) (retry_delay : Nat) :
    Nat → Nat → DetectResult
  | 0, _ => { result := none, sleeps := [] }
  | rem + 1, attempt =>
    match outcomes attempt with
    | .model name => { result := some name, sleeps := [] }
    | .badJson => detectGo outcomes retry_delay rem (attempt + 1)
    | .malformedModels => detectGo outcomes retry_delay rem (attempt + 1)
    | .netFail =>
      let r := detectGo outcomes retry_delay rem (attempt + 1)
      if 0 < rem then { result := r.result, sleeps := retry_delay :: r.sleeps }
      else r
    | .emptyModels =>
      let r := detectGo outcomes retry_delay rem (attempt + 1)
      if 0 < rem then { result := r.result, sleeps := retry_delay :: r.sleeps }
      else r

def detect_ollama_model (preferred : Option String) (outcomes : Nat → PollOutcome)
    (max_retries retry_delay : Nat) : DetectResult :=
  match preferred with
  | some p => { result := some p, sleeps := [] }
  | none => detectGo outcomes retry_delay max_retries 1

/-! ### Index persistence (rag_app.py lines 137-207)

Filesystem state relevant to the rebuild-or-reuse decision: whether the index
artifact at INDEX_PATH exists, the content of the sidecar hash file at
CORPUS_HASH_PATH (`none` when missing), and the bytes of the corpus file. -/

structure FsState where
  indexExists : Bool
  hashFileContent : Option String
  corpusBytes : List Nat
  deriving Repr, DecidableEq

/-- `compute_corpus_hash` streams the file through an incrementally updated
SHA-256 in 4096-byte blocks, which digests exactly the whole byte sequence;
the SHA-256 capability itself (`hashlib`) is the abstract parameter
`sha256hex`. -/
def compute_corpus_hash (sha256hex : List Nat → String) (corpusBytes : List Nat) :
    String :=
  sha256hex corpusBytes

/-- `should_rebuild_index` (rag_app.py lines 145-164); the stored hash is read
and then stripped (`f.read().strip()`) before the comparison. -/
def should_rebuild_index (sha256hex : List Nat → String) (st : FsState) : Bool :=
  if !st.indexExists then true
  else
    match st.hashFileContent with
    | none => true
    | some content =>
      let current_hash := compute_corpus_hash sha256hex st.corpusBytes
      let saved_hash := pyStrip content
      if current_hash = saved_hash then false else true

/-- The persistence tail of the rebuild branch (rag_app.py lines 196-203):
`faiss.write_index` first, then `compute_corpus_hash` and the sidecar write.
The list holds the filesystem state after each of the two successive writes;
a crash between them leaves the first state on disk. -/
def rebuildPersistSteps (sha256hex : List Nat → String) (st : FsState) :
    List FsState :=
  let afterIndexWrite : FsState := { st with indexExists := true }
  let afterHashWrite : FsState :=
    { afterIndexWrite with
      hashFileContent := some (compute_corpus_hash sha256hex st.corpusBytes) }
  [afterIndexWrite, afterHashWrite]

structure EnsureResult where
  embedCalls : Nat
  fsAfter : FsState
  loadedFromDisk : Bool
  deriving Repr, DecidableEq

/-- The module-level build-or-load block (rag_app.py lines 189-207):
on rebuild, `embedder.encode(corpus)` embeds every passage (`corpusLen`
embedding calls) and both artifacts are written; otherwise the persisted index
is loaded and the embedding capability is not invoked for any passage. -/
def ensureIndex (sha256hex : List Nat → String) (st : FsState) (corpusLen : Nat) :
    EnsureResult :=
  if should_rebuild_index sha256hex st then
    { embedCalls := corpusLen
      fsAfter := (rebuildPersistSteps sha256hex st).getLastD st
      loadedFromDisk := false }
  else
    { embedCalls := 0, fsAfter := st, loadedFromDisk := true }

/-! ### Thread-safe retriever (rag_app.py lines 214-239)

`LocalRetriever` holds the embedding capability, the flat inner-product index
(modelled by the list of stored vectors, in insertion order), the corpus and
the default `k`.  The `threading.Lock` taken around the embed+search pair has
no observable effect on a single call's value and is not part of the
functional model. -/

/-- Inner product of two embedding vectors. -/
def dot (v w : List Int) : Int :=
  (List.zipWith (fun a b => a * b) v w).sum

/-- Ordering of (position, score) pairs by descending score, as a flat
inner-product index ranks its results. -/
def scoreGe (a b : Nat × Int) : Prop := b.2 ≤ a.2

instance : DecidableRel scoreGe := fun a b => inferInstanceAs (Decidable (b.2 ≤ a.2))

instance : IsTotal (Nat × Int) scoreGe :=
  ⟨fun a b => (le_total b.2 a.2).imp (fun h => h) (fun h => h)⟩

instance : IsTrans (Nat × Int) scoreGe :=
  ⟨fun _ _ _ hab hbc => le_trans hbc hab⟩

/-- Every stored vector's position paired with its inner product against the
query. -/
def scoredList (vecs : List (List Int)) (q : List Int) : List (Nat × Int) :=
  (List.range vecs.length).map (fun i => (i, dot (vecs.getD i []) q))

/-- All positions ranked by descending inner product. -/
def rankedList (vecs : List (List Int)) (q : List Int) : List (Nat × Int) :=
  List.insertionSort scoreGe (scoredList vecs q)

/-- The `k` best (position, score) pairs. -/
def topPairs (vecs : List (List Int)) (q : List Int) (k : Nat) : List (Nat × Int) :=
  (rankedList vecs q).take k

/-- `faiss.IndexFlatIP.search` restricted to the index array `I[0]` (the
distance array `D` is unused by the source): the positions of all stored
vectors ranked by descending inner product with the query, truncated to `k`
and padded with the sentinel `-1` when `k` exceeds the number of stored
vectors. -/
def indexSearchI (vecs : List (List Int)) (q : List Int) (k : Nat) : List Int :=
  let top := (topPairs vecs q k).map (fun p => (p.1 : Int))
  top ++ List.replicate (k - top.length) (-1)

structure LocalRetriever where
  embedder : String → List Int
  vecs : List (List Int)
  corpus : List String
  k : Nat

/-- The single-query body of `LocalRetriever.forward` (rag_app.py lines
227-233): embed the query, search the index, and keep
`self.corpus[i] for i in I[0] if i != -1`. -/
def searchOne (r : LocalRetriever) (q : String) (k : Nat) : List String :=
  let q_emb := r.embedder q
  let I := indexSearchI r.vecs q_emb k
  (I.filter (fun i => i ≠ -1)).map (fun i => r.corpus.getD i.toNat "")

/-- The index positions actually kept by `searchOne` (after the `i != -1`
filter). -/
def searchIndices (r : LocalRetriever) (q : String) (k : Nat) : List Int :=
  (indexSearchI r.vecs (r.embedder q) k).filter (fun i => i ≠ -1)

/-- The similarity scores of the kept positions, in result order. -/
def searchScores (r : LocalRetriever) (q : String) (k : Nat) : List Int :=
  (searchIndices r q k).map (fun i => dot (r.vecs.getD i.toNat []) (r.embedder q))

/-- Python `k = k or self.k`: `None` and `0` are both falsy, so an explicit
`k=0` silently falls back to the retriever's default. -/
def effK (k : Option Nat) (dflt : Nat) : Nat :=
  match k with
  | none => dflt
  | some 0 => dflt
  | some (m + 1) => m + 1

/-- `forward` accepts either a bare query string or a list of queries. -/
inductive QueryInput where
  | single (q : String)
  | batch (qs : List String)
  deriving Repr, DecidableEq

/-- `forward` returns either one `dspy.Prediction` (its `passages` field) or a
list of them. -/
inductive ForwardOut where
  | pred (passages : List String)
  | preds (ps : List (List String))
  deriving Repr, DecidableEq

/-- `LocalRetriever.forward` (rag_app.py lines 222-237). -/
def LocalRetriever.forward (r : LocalRetriever) (input : QueryInput)
    (k : Option Nat) : ForwardOut :=
  let keff := effK k r.k
  let queries := match input with
    | .single q => [q]
    | .batch qs => qs
  let all_passages := queries.map (fun q => searchOne r q keff)
  match all_passages with
  | [p] => .pred p
  | ps => .preds ps

/-! ### Query pipeline (rag_app.py lines 301-342)

`rag(message)` runs retrieval and generation; any exception raised inside it
is modelled by `Except.error` carrying the exception text.  `time.time()`
latency measurement is modelled by the `latency` parameter, and the global
`metrics` object is threaded explicitly. -/

structure RagResult where
  answer : String
  context : List String
  deriving Repr, DecidableEq

/-- The fixed user-facing message built in the exception handler of `rag_chat`
(rag_app.py lines 337-340). -/
def generic_error_message : String :=
  "I encountered an error processing your question. Please try:\n" ++
  "• Rephrasing your question\n" ++
  "• Making your question more specific\n" ++
  "• Checking if the service is running properly"

/-- The sources block appended to the answer (rag_app.py lines 319-320). -/
def sources_block (context : List String) : String :=
  "\n\n**Retrieved contexts** (top matches):\n" ++
  String.intercalate "\n" (context.map (fun c => "- " ++ smart_truncate c 180))

/-- `rag_chat` (rag_app.py lines 301-342).  Returns the pair the handler
returns to Gradio (response text, updated history) together with the metrics
state after the call. -/
def rag_chat (ragFn : String → Except String RagResult) (latency : ℚ)
    (message : String) (history : List (String × String))
    (m : MetricsCollector) :
    (String × List (String × String)) × MetricsCollector :=
  let v := validate_input message
  if v.1 = false then
    ((v.2.getD "", history), m)
  else
    match ragFn message with
    | .ok result =>
      let full_response := result.answer ++ sources_block result.context
      ((full_response, history ++ [(message, full_response)]),
        m.record_query latency true)
    | .error _ =>
      ((generic_error_message, history), m.record_query latency false)

/-! ### Concrete fixtures used by witnesses and counterexamples -/

/-- A small retriever instance: three one-dimensional stored vectors, three
corpus passages, the source's default `k = RETRIEVER_K`. -/
def r0 : LocalRetriever :=
  { embedder := fun _ => [1]
    vecs := [[2], [1], [3]]
    corpus := ["a", "b", "c"]
    k := RETRIEVER_K }

/-- A concrete stand-in for the SHA-256 capability. -/
def sha0 : List Nat → String := fun _ => "h"

/-- Filesystem state before any build: no index, no sidecar hash. -/
def fs0 : FsState :=
  { indexExists := false, hashFileContent := none, corpusBytes := [1] }

/-- Filesystem state with a persisted index whose sidecar matches `sha0`. -/
def fsMatch : FsState :=
  { indexExists := true, hashFileContent := some "h", corpusBytes := [1] }

/-- Attempt 1 returns a 200 response with an invalid-JSON body; attempt 2
lists one model. -/
def outBadJson : Nat → PollOutcome :=
  fun n => if n = 1 then .badJson else .model "llama3"

/-- Attempt 1 fails at the network level; attempt 2 lists one model. -/
def outNetFail : Nat → PollOutcome :=
  fun n => if n = 1 then .netFail else .model "llama3"

/-- A message of 2001 blanks: over the length limit yet whitespace-only. -/
def wsOverlong : String := String.mk (List.replicate 2001 ' ')

/-- Two recorded queries, the second failing. -/
def records0 : List (ℚ × Bool) := [(1, true), (2, false)]

/-! ## Theorems -/

/-! ### Helper lemmas -/

theorem pyStrip_empty : pyStrip "" = "" := rfl

theorem pyRound2_zero : pyRound2 0 = 0 := by
  norm_num [pyRound2]

theorem ne_empty_of_pyStrip_ne (s : String) (h : pyStrip s ≠ "") : s ≠ "" :=
  fun he => h (he ▸ pyStrip_empty)

theorem length_pos_of_ne_empty (s : String) (h : s ≠ "") : 0 < s.length := by
  obtain ⟨l⟩ := s
  cases l with
  | nil => exact absurd rfl h
  | cons c cs => simp [String.length]

theorem string_mk_length (l : List Char) : (String.mk l).length = l.length := rfl

theorem dropWhile_replicate_of_pos (n : Nat) (c : Char) (h : isPySpace c = true) :
    List.dropWhile isPySpace (List.replicate n c) = [] := by
  induction n with
  | zero => rfl
  | succ m ih => simp only [List.replicate_succ, List.dropWhile_cons, h, if_true, ih]

theorem dropWhile_replicate_of_neg (n : Nat) (c : Char) (h : isPySpace c = false) :
    List.dropWhile isPySpace (List.replicate n c) = List.replicate n c := by
  cases n with
  | zero => rfl
  | succ m => simp [List.replicate_succ, List.dropWhile_cons, h]

theorem pyStrip_replicate_space (n : Nat) :
    pyStrip (String.mk (List.replicate n ' ')) = "" := by
  simp [pyStrip, dropWhile_replicate_of_pos n ' ' rfl]

theorem pyStrip_replicate_nonspace (n : Nat) (c : Char) (h : isPySpace c = false) :
    pyStrip (String.mk (List.replicate n c)) = String.mk (List.replicate n c) := by
  simp [pyStrip, dropWhile_replicate_of_neg n c h, List.reverse_replicate]

theorem mk_replicate_ne_empty (n : Nat) (c : Char) (h : 0 < n) :
    String.mk (List.replicate n c) ≠ "" := by
  intro he
  have h2 := congrArg String.length he
  rw [string_mk_length, List.length_replicate] at h2
  rw [h2] at h
  exact Nat.lt_irrefl 0 h

theorem validate_input_of_whitespace (s : String) (h : pyStrip s = "") :
    validate_input s = (false, some "Please enter a question.") := by
  simp [validate_input, h]

theorem validate_input_of_overlong (s : String) (hws : pyStrip s ≠ "")
    (hlong : MAX_QUERY_LENGTH < s.length) :
    validate_input s = (false, some ("Query too long (max " ++
      toString MAX_QUERY_LENGTH ++ " characters). Please shorten your question.")) := by
  have hne : s ≠ "" := ne_empty_of_pyStrip_ne s hws
  have hpos : 0 < s.length := length_pos_of_ne_empty s hne
  simp [validate_input, hne, hws, MIN_QUERY_LENGTH, Nat.not_lt.mpr hpos, hlong]

theorem validate_input_of_ok (s : String) (hws : pyStrip s ≠ "")
    (hshort : s.length ≤ MAX_QUERY_LENGTH) :
    validate_input s = (true, none) := by
  have hne : s ≠ "" := ne_empty_of_pyStrip_ne s hws
  have hpos : 0 < s.length := length_pos_of_ne_empty s hne
  simp [validate_input, hne, hws, MIN_QUERY_LENGTH, Nat.not_lt.mpr hpos,
    Nat.not_lt.mpr hshort]

/-! ### C4 -/

/-- C4: on a valid message, every exception from the retrieval/generation
phase (`rag(message)`) makes `rag_chat` record a failure metric with the
measured latency, leave the history unchanged and return the fixed generic
message; the right-hand side does not depend on the exception text `e`, so
the internal exception text is never part of the returned value. -/
theorem rag_chat_failure_containment (ragFn : String → Except String RagResult)
    (latency : ℚ) (message : String) (history : List (String × String))
    (m : MetricsCollector) (e : String)
    (hvalid : (validate_input message).1 = true)
    (herr : ragFn message = .error e) :
    rag_chat ragFn latency message history m =
      ((generic_error_message, history), m.record_query latency false) := by
  simp [rag_chat, hvalid, herr]

/-- C4 witness: a concrete failing pipeline on the valid message "hi". -/
theorem rag_chat_failure_containment_witness :
    rag_chat (fun _ => Except.error "boom") 1 "hi" [] MetricsCollector.init =
      ((generic_error_message, []), MetricsCollector.init.record_query 1 false) :=
  rag_chat_failure_containment (fun _ => Except.error "boom") 1 "hi" []
    MetricsCollector.init "boom" (by decide) rfl

/-! ### C5 -/

/-- C5: on a message the validator rejects, `rag_chat` returns the validator's
user message, leaves the history unchanged and returns the metrics state
untouched; the result does not depend on `ragFn`, so neither retrieval nor
generation is consulted. -/
theorem rag_chat_rejected_no_effects (ragFn : String → Except String RagResult)
    (latency : ℚ) (message : String) (history : List (String × String))
    (m : MetricsCollector) (err : String)
    (hrej : validate_input message = (false, some err)) :
    rag_chat ragFn latency message history m = ((err, history), m) := by
  simp [rag_chat, hrej]

/-- C5 witness: the empty message is rejected with "Please enter a question."
and the metrics state is returned unchanged. -/
theorem rag_chat_rejected_no_effects_witness :
    rag_chat (fun _ => Except.error "x") 0 "" [] MetricsCollector.init =
      (("Please enter a question.", []), MetricsCollector.init) :=
  rag_chat_rejected_no_effects (fun _ => Except.error "x") 0 "" []
    MetricsCollector.init "Please enter a question." (by decide)

/-! ### C6 -/

/-- C6 counterexample: a message of 2001 blanks is longer than 2000
characters, yet `validate_input` rejects it with "Please enter a question."
rather than with a message stating the limit, because the
empty-or-whitespace-only check runs first. -/
theorem validate_overlong_whitespace_wrong_message :
    MAX_QUERY_LENGTH < wsOverlong.length ∧
    validate_input wsOverlong = (false, some "Please enter a question.") ∧
    "Please enter a question." ≠
      ("Query too long (max " ++ toString MAX_QUERY_LENGTH ++
        " characters). Please shorten your question.") := by
  refine ⟨?_, ?_, by decide⟩
  · rw [wsOverlong, string_mk_length, List.length_replicate]
    decide
  · exact validate_input_of_whitespace wsOverlong (pyStrip_replicate_space 2001)

/-- C6 (amended): the whitespace check takes priority — every empty or
whitespace-only message (of any length) is rejected with "Please enter a
question."; every other message longer than 2000 characters is rejected with
the message stating the limit; every other message is accepted.  The
`len < MIN_QUERY_LENGTH` branch of the source is unreachable (a message with
non-blank content has positive length), and validation is a pure function of
the message. -/
theorem validate_input_spec (s : String) :
    (pyStrip s = "" → validate_input s = (false, some "Please enter a question.")) ∧
    (pyStrip s ≠ "" → MAX_QUERY_LENGTH < s.length →
      validate_input s = (false, some ("Query too long (max " ++
        toString MAX_QUERY_LENGTH ++ " characters). Please shorten your question."))) ∧
    (pyStrip s ≠ "" → s.length ≤ MAX_QUERY_LENGTH →
      validate_input s = (true, none)) :=
  ⟨fun hws => validate_input_of_whitespace s hws,
   fun hws hlong => validate_input_of_overlong s hws hlong,
   fun hws hshort => validate_input_of_ok s hws hshort⟩

/-- C6 witness: the three branches at concrete messages — blanks only, 2001
non-blank characters, and an ordinary question. -/
theorem validate_input_spec_witness :
    validate_input "   " = (false, some "Please enter a question.") ∧
    validate_input (String.mk (List.replicate 2001 'a')) = (false,
      some ("Query too long (max " ++ toString MAX_QUERY_LENGTH ++
        " characters). Please shorten your question.")) ∧
    validate_input "hello" = (true, none) :=
  ⟨(validate_input_spec "   ").1 (by decide),
   (validate_input_spec (String.mk (List.replicate 2001 'a'))).2.1
     (by rw [pyStrip_replicate_nonspace 2001 'a' rfl]
         exact mk_replicate_ne_empty 2001 'a' (by decide))
     (by rw [string_mk_length, List.length_replicate]; decide),
   (validate_input_spec "hello").2.2 (by decide) (by decide)⟩

/-! ### C7 -/

theorem fold_record_query_count (records : List (ℚ × Bool)) (m : MetricsCollector) :
    (records.foldl (fun acc r => acc.record_query r.1 r.2) m).query_count =
      m.query_count + records.length := by
  induction records generalizing m with
  | nil => simp
  | cons r rs ih =>
    rw [List.foldl_cons, ih (m.record_query r.1 r.2)]
    simp only [MetricsCollector.record_query, List.length_cons]
    omega

theorem fold_record_error_count (records : List (ℚ × Bool)) (m : MetricsCollector) :
    (records.foldl (fun acc r => acc.record_query r.1 r.2) m).error_count =
      m.error_count + (records.filter (fun r => !r.2)).length := by
  induction records generalizing m with
  | nil => simp
  | cons r rs ih =>
    rw [List.foldl_cons, ih (m.record_query r.1 r.2)]
    cases hs : r.2 <;> (simp [MetricsCollector.record_query, hs, List.filter_cons]; try omega)

theorem fold_record_total_latency (records : List (ℚ × Bool)) (m : MetricsCollector) :
    (records.foldl (fun acc r => acc.record_query r.1 r.2) m).total_latency =
      m.total_latency + (records.map Prod.fst).sum := by
  induction records generalizing m with
  | nil => simp
  | cons r rs ih =>
    rw [List.foldl_cons, ih (m.record_query r.1 r.2)]
    simp only [MetricsCollector.record_query, List.map_cons, List.sum_cons]
    ring

/-- C7: starting from a fresh collector, after any sequence of `record_query`
calls the snapshot's totals are the number of calls and the number of calls
with `success=False`; `get_stats` reports average latency
`cumulative_latency / total` (0 when no queries were recorded) and success
rate `(total - errors) / total * 100` (100 when no queries were recorded),
both at Python's two-decimal rounding. -/
theorem metrics_spec (records : List (ℚ × Bool)) :
    ((records.foldl (fun acc r => acc.record_query r.1 r.2)
        MetricsCollector.init).query_count = records.length) ∧
    ((records.foldl (fun acc r => acc.record_query r.1 r.2)
        MetricsCollector.init).error_count =
      (records.filter (fun r => !r.2)).length) ∧
    ((records.foldl (fun acc r => acc.record_query r.1 r.2)
        MetricsCollector.init).total_latency = (records.map Prod.fst).sum) ∧
    (records = [] →
      (records.foldl (fun acc r => acc.record_query r.1 r.2)
        MetricsCollector.init).get_stats =
        { total_queries := 0, errors := 0, avg_latency_sec := 0,
          success_rate := 100 }) ∧
    (records ≠ [] →
      ((records.foldl (fun acc r => acc.record_query r.1 r.2)
          MetricsCollector.init).get_stats.avg_latency_sec =
        pyRound2 ((records.map Prod.fst).sum / (records.length : ℚ))) ∧
      ((records.foldl (fun acc r => acc.record_query r.1 r.2)
          MetricsCollector.init).get_stats.success_rate =
        pyRound2 ((((records.length : ℚ) -
          ((records.filter (fun r => !r.2)).length : ℚ)) /
            (records.length : ℚ)) * 100))) := by
  have hq := fold_record_query_count records MetricsCollector.init
  have he := fold_record_error_count records MetricsCollector.init
  have hl := fold_record_total_latency records MetricsCollector.init
  rw [show MetricsCollector.init.query_count = 0 from rfl, Nat.zero_add] at hq
  rw [show MetricsCollector.init.error_count = 0 from rfl, Nat.zero_add] at he
  rw [show MetricsCollector.init.total_latency = 0 from rfl, zero_add] at hl
  refine ⟨hq, he, hl, fun hnil => ?_, fun hne => ?_⟩
  · subst hnil
    simp only [List.foldl_nil]
    simp [MetricsCollector.get_stats, MetricsCollector.init, pyRound2_zero]
  · have hpos : 0 < records.length := List.length_pos.mpr hne
    constructor
    · simp [MetricsCollector.get_stats, hq, he, hl, hpos]
    · simp [MetricsCollector.get_stats, hq, he, hl, hpos]

/-- C7 witness: two recorded queries, one failing. -/
theorem metrics_spec_witness :
    ((records0.foldl (fun acc r => acc.record_query r.1 r.2)
        MetricsCollector.init).query_count = records0.length) ∧
    ((records0.foldl (fun acc r => acc.record_query r.1 r.2)
        MetricsCollector.init).error_count =
      (records0.filter (fun r => !r.2)).length) ∧
    ((records0.foldl (fun acc r => acc.record_query r.1 r.2)
        MetricsCollector.init).get_stats.success_rate =
      pyRound2 ((((records0.length : ℚ) -
        ((records0.filter (fun r => !r.2)).length : ℚ)) /
          (records0.length : ℚ)) * 100)) :=
  ⟨(metrics_spec records0).1,
   (metrics_spec records0).2.1,
   ((metrics_spec records0).2.2.2.2 (by decide)).2⟩

/-! ### C2 -/

/-- C2: the rebuild-or-reuse decision is exactly: rebuild when no index
artifact exists, else rebuild when no sidecar fingerprint exists, else
rebuild exactly when the freshly computed digest of the corpus file differs
from the (stripped) stored fingerprint; and whenever both artifacts exist and
the stored fingerprint equals the current digest (a hex digest, hence
invariant under stripping), the decision is reuse and `ensureIndex` performs
zero embedding calls, loading the persisted index instead. -/
theorem rebuild_decision_spec (sha256hex : List Nat → String) (st : FsState)
    (corpusLen : Nat) :
    (should_rebuild_index sha256hex st = true ↔
      st.indexExists = false ∨ st.hashFileContent = none ∨
        (∃ s, st.hashFileContent = some s ∧
          compute_corpus_hash sha256hex st.corpusBytes ≠ pyStrip s)) ∧
    (∀ s, st.indexExists = true → st.hashFileContent = some s →
      pyStrip s = s → s = compute_corpus_hash sha256hex st.corpusBytes →
      should_rebuild_index sha256hex st = false ∧
      ensureIndex sha256hex st corpusLen =
        { embedCalls := 0, fsAfter := st, loadedFromDisk := true }) := by
  constructor
  · obtain ⟨ie, hc, bytes⟩ := st
    cases ie
    · cases hc <;> simp [should_rebuild_index, compute_corpus_hash]
    · cases hc with
      | none => simp [should_rebuild_index]
      | some s =>
        by_cases h : sha256hex bytes = pyStrip s <;>
          simp [should_rebuild_index, compute_corpus_hash, h]
  · intro s hie hhc hstrip heq
    have h1 : should_rebuild_index sha256hex st = false := by
      simp [should_rebuild_index, hie, hhc, hstrip, ← heq]
    exact ⟨h1, by simp [ensureIndex, h1]⟩

/-- C2 witness: with a persisted index whose sidecar holds the current
digest, the decision is reuse and no embedding call happens. -/
theorem rebuild_decision_spec_witness :
    should_rebuild_index sha0 fsMatch = false ∧
    ensureIndex sha0 fsMatch 3 =
      { embedCalls := 0, fsAfter := fsMatch, loadedFromDisk := true } :=
  (rebuild_decision_spec sha0 fsMatch 3).2 "h" (by decide) (by decide)
    (by decide) (by decide)

/-! ### C3 -/

/-- C3 counterexample: starting from a state with no artifacts, the state
after the first persistence step of a rebuild has the index on disk while
the fingerprint file is still missing, so the claimed invariant — a persisted
index is never paired with a stale or missing fingerprint during or after a
rebuild — fails between the two writes. -/
theorem rebuild_partial_pairs_index_without_hash :
    ¬ (∀ s ∈ rebuildPersistSteps sha0 fs0, s.indexExists = true →
        s.hashFileContent = some (compute_corpus_hash sha0 s.corpusBytes)) := by
  intro h
  have h1 := h { fs0 with indexExists := true } (by simp [rebuildPersistSteps])
  have h2 := h1 (by decide)
  exact Option.noConfusion h2

/-- C3 (amended): the index and the fingerprint are persisted by two
sequential writes, not atomically: the index write completes first, leaving
the previous (possibly missing or stale) fingerprint alongside the new index
until the second write lands; after the full sequence completes, the
persisted fingerprint equals the digest of the current corpus file's bytes
and the index artifact exists. -/
theorem rebuild_persist_sequential (sha256hex : List Nat → String) (st : FsState) :
    (rebuildPersistSteps sha256hex st).getD 0 st =
      { st with indexExists := true } ∧
    (rebuildPersistSteps sha256hex st).getLastD st =
      { indexExists := true
        hashFileContent := some (compute_corpus_hash sha256hex st.corpusBytes)
        corpusBytes := st.corpusBytes } ∧
    (rebuildPersistSteps sha256hex st).length = 2 :=
  ⟨rfl, rfl, rfl⟩

/-! ### C8 -/

/-- C8: the claim is right and the code is wrong about the inter-attempt
delay.  With no configured override: after an attempt that hits an
invalid-JSON body, the `continue` statement in the source skips
`time.sleep`, so the next attempt starts with no delay (`sleeps = []`),
whereas after a network failure the fixed delay is taken (`sleeps = [5]`);
both runs reach the model on attempt 2.  Exhausting all attempts yields no
model (`sys.exit(1)`), and 20 consecutive malformed bodies are retried with
zero accumulated delay. -/
theorem detect_no_delay_after_bad_json :
    detect_ollama_model none outBadJson 20 5 =
      { result := some "llama3", sleeps := [] } ∧
    detect_ollama_model none outNetFail 20 5 =
      { result := some "llama3", sleeps := [5] } ∧
    detect_ollama_model none (fun _ => PollOutcome.badJson) 20 5 =
      { result := none, sleeps := [] } ∧
    detect_ollama_model none (fun _ => PollOutcome.emptyModels) 3 5 =
      { result := none, sleeps := [5, 5] } := by
  refine ⟨rfl, rfl, ?_, rfl⟩
  decide

/-! ### C10 -/

/-- C10: `forward`'s result shape depends on the argument's type, not its
size: a bare string yields a single `Prediction`; a list of queries yields
one result per query in order, except that a one-element list collapses to a
bare `Prediction`. -/
theorem forward_shape_spec (r : LocalRetriever) (k : Option Nat) :
    (∀ q, r.forward (.single q) k = .pred (searchOne r q (effK k r.k))) ∧
    (∀ qs, qs.length ≠ 1 →
      r.forward (.batch qs) k =
        .preds (qs.map (fun q => searchOne r q (effK k r.k)))) ∧
    (∀ q, r.forward (.batch [q]) k = .pred (searchOne r q (effK k r.k))) := by
  refine ⟨fun q => rfl, fun qs hqs => ?_, fun q => rfl⟩
  match qs with
  | [] => rfl
  | [q] => exact absurd rfl hqs
  | q1 :: q2 :: rest => rfl

/-- C10 witness: an empty batch maps to an empty list of predictions. -/
theorem forward_shape_spec_witness :
    r0.forward (.batch []) none = .preds [] :=
  (forward_shape_spec r0 none).2.1 [] (by decide)

/-! ### C1 -/

theorem mem_rankedList (vecs : List (List Int)) (q : List Int) (p : Nat × Int)
    (hp : p ∈ rankedList vecs q) :
    p.1 < vecs.length ∧ p.2 = dot (vecs.getD p.1 []) q := by
  have hmem : p ∈ scoredList vecs q :=
    (List.perm_insertionSort scoreGe (scoredList vecs q)).mem_iff.mp hp
  unfold scoredList at hmem
  obtain ⟨i, hi, hfi⟩ := List.mem_map.mp hmem
  rw [← hfi]
  exact ⟨List.mem_range.mp hi, rfl⟩

theorem mem_topPairs (vecs : List (List Int)) (q : List Int) (k : Nat)
    (p : Nat × Int) (hp : p ∈ topPairs vecs q k) :
    p.1 < vecs.length ∧ p.2 = dot (vecs.getD p.1 []) q :=
  mem_rankedList vecs q p ((List.take_sublist k (rankedList vecs q)).mem hp)

theorem topPairs_sorted (vecs : List (List Int)) (q : List Int) (k : Nat) :
    List.Sorted scoreGe (topPairs vecs q k) :=
  List.Pairwise.sublist (List.take_sublist k (rankedList vecs q))
    (List.sorted_insertionSort scoreGe (scoredList vecs q))

theorem searchIndices_eq (r : LocalRetriever) (q : String) (k : Nat) :
    searchIndices r q k =
      (topPairs r.vecs (r.embedder q) k).map (fun p => (p.1 : Int)) := by
  unfold searchIndices indexSearchI
  rw [List.filter_append]
  have h1 : ((topPairs r.vecs (r.embedder q) k).map
      (fun p => (p.1 : Int))).filter (fun i => decide (i ≠ -1)) =
        (topPairs r.vecs (r.embedder q) k).map (fun p => (p.1 : Int)) := by
    refine List.filter_eq_self.mpr ?_
    intro a ha
    obtain ⟨p, _, hpa⟩ := List.mem_map.mp ha
    have : (0 : Int) ≤ a := hpa ▸ Int.natCast_nonneg p.1
    simp only [decide_eq_true_eq]
    omega
  have h2 : ∀ n : Nat, (List.replicate n (-1 : Int)).filter
      (fun i => decide (i ≠ -1)) = [] := by
    intro n
    refine List.filter_eq_nil_iff.mpr ?_
    intro a ha
    rw [List.eq_of_mem_replicate ha]
    simp
  rw [h1, h2, List.append_nil]

theorem searchOne_eq (r : LocalRetriever) (q : String) (k : Nat) :
    searchOne r q k =
      (searchIndices r q k).map (fun i => r.corpus.getD i.toNat "") := rfl

theorem searchIndices_length (r : LocalRetriever) (q : String) (k : Nat) :
    (searchIndices r q k).length ≤ k := by
  rw [searchIndices_eq, List.length_map]
  unfold topPairs
  rw [List.length_take]
  exact Nat.min_le_left k _

/-- C1 (amended): for every query `q` and every `k` with `1 ≤ k ≤ corpus
size` (an explicit `k=0` does not request zero passages: Python's
`k = k or self.k` treats `0` as falsy and falls back to the default, see the
counterexample), `forward` on a retriever whose index holds one vector per
corpus passage returns a single prediction whose passages are at most `k`,
each drawn from the corpus, ordered by non-increasing similarity score, with
every sentinel `-1` position filtered out. -/
theorem search_topk_spec (r : LocalRetriever) (q : String) (k : Nat)
    (hk : 1 ≤ k) (hkc : k ≤ r.corpus.length)
    (hvc : r.vecs.length = r.corpus.length) :
    r.forward (.single q) (some k) = .pred (searchOne r q k) ∧
    (searchOne r q k).length ≤ k ∧
    (∀ p ∈ searchOne r q k, p ∈ r.corpus) ∧
    List.Sorted (fun a b : Int => b ≤ a) (searchScores r q k) ∧
    (-1 : Int) ∉ searchIndices r q k := by
  refine ⟨?_, ?_, ?_, ?_, ?_⟩
  · match k, hk with
    | m + 1, _ => rfl
  · rw [searchOne_eq, List.length_map]
    exact searchIndices_length r q k
  · intro p hp
    rw [searchOne_eq] at hp
    obtain ⟨i, hi, hip⟩ := List.mem_map.mp hp
    rw [searchIndices_eq] at hi
    obtain ⟨pr, hpr, hpi⟩ := List.mem_map.mp hi
    have hb := (mem_topPairs r.vecs (r.embedder q) k pr hpr).1
    have hlt : i.toNat < r.corpus.length := by
      rw [← hpi, Int.toNat_ofNat, ← hvc]
      exact hb
    rw [← hip, List.getD_eq_getElem?_getD, List.getElem?_eq_getElem hlt,
      Option.getD_some]
    exact List.getElem_mem hlt
  · unfold searchScores
    rw [searchIndices_eq, List.map_map]
    have hcong : ((topPairs r.vecs (r.embedder q) k).map
        ((fun i : Int => dot (r.vecs.getD i.toNat []) (r.embedder q)) ∘
          (fun p : Nat × Int => (p.1 : Int)))) =
        (topPairs r.vecs (r.embedder q) k).map Prod.snd := by
      refine List.map_congr_left ?_
      intro p hp
      have hs := (mem_topPairs r.vecs (r.embedder q) k p hp).2
      simp only [Function.comp_apply, Int.toNat_ofNat]
      exact hs.symm
    rw [hcong]
    exact List.Pairwise.map Prod.snd (fun a b hab => hab)
      (topPairs_sorted r.vecs (r.embedder q) k)
  · intro hmem
    rw [searchIndices_eq] at hmem
    obtain ⟨p, _, hp⟩ := List.mem_map.mp hmem
    have : (0 : Int) ≤ -1 := hp ▸ Int.natCast_nonneg p.1
    omega

/-- C1 witness: the amended claim at the concrete retriever `r0` with
`q = "x"` and `k = 1`. -/
theorem search_topk_spec_witness :
    r0.forward (.single "x") (some 1) = .pred (searchOne r0 "x" 1) ∧
    (searchOne r0 "x" 1).length ≤ 1 ∧
    (∀ p ∈ searchOne r0 "x" 1, p ∈ r0.corpus) ∧
    List.Sorted (fun a b : Int => b ≤ a) (searchScores r0 "x" 1) ∧
    (-1 : Int) ∉ searchIndices r0 "x" 1 :=
  search_topk_spec r0 "x" 1 (by decide) (by decide) (by decide)

/-- C1 counterexample: the claim as stated fails at `k = 0`: `0 ≤ corpus
size`, but because Python's `k = k or self.k` treats `0` as falsy, `forward`
with `k=0` on `r0` (default `k = 5`, corpus size 3) returns 3 passages, not
at most 0. -/
theorem forward_k_zero_uses_default_k :
    (0 : Nat) ≤ r0.corpus.length ∧
    r0.forward (.single "x") (some 0) = .pred ["c", "a", "b"] ∧
    ¬ ((["c", "a", "b"] : List String).length ≤ 0) := by
  refine ⟨by decide, by decide, by decide⟩

end RagApp
